import Mathlib

/-
  Verification of `adocker/models/images.py` (the `Image` model and
  `ImageCollection`) against its natural-language specification.

  Shallow embedding conventions:
  * Python strings are sequences of code points; they are modelled as Lean
    `String`s, with slicing, length and prefix tests performed on the
    underlying character list (`String.data`), matching Python semantics.
  * Progress records decoded from the daemon's build stream are flat JSON
    objects with string values; they are modelled as association lists
    (`Chunk`).  Python's `k in d` / `d[k]` become `List.lookup`.
  * Loosely typed snapshot values (`attrs`) are modelled by the sum type
    `AttrVal` covering the shapes the accessors read (null, string, list of
    strings, string map, nested object).
  * Fallible code returns `Except PyErr _`; `PyErr` covers the exceptions
    the embedded code can raise (NameError, KeyError, BuildError, ...).
  * Laziness of the streamed response is made observable by instrumenting
    the build entry point with the number of records pulled from the
    stream, returned as the first component of its result.
-/

/-- Python slice `s[:n]`: the first `n` code points of `s`. -/
def pyTake (s : String) (n : Nat) : String := String.mk (s.data.take n)

/-- Python `len(s)`: the number of code points of `s`. -/
def pyLen (s : String) : Nat := s.data.length

/-- Python `s.startswith(p)`. -/
def startswith (s p : String) : Bool := p.data.isPrefixOf s.data

/-- Character class `[0-9a-f]` of the extraction pattern at
`images.py:183`. -/
def isHexDigitLower (c : Char) : Bool := "0123456789abcdef".data.contains c

/-- The characters of the first alternative `^Successfully built ` of the
extraction pattern (`images.py:183`). -/
def sbMarker : List Char := "Successfully built ".data

/-- The characters of the second alternative `sha256:` of the extraction
pattern (`images.py:183`). -/
def shaMarker : List Char := "sha256:".data

/-- Matching of the pattern suffix `([0-9a-f]+)$` against the remainder `l`
of the subject after one of the two marker alternatives: Python's `$`
(without `re.M`) matches at the very end of the subject or just before a
newline that ends the subject, and `[0-9a-f]+` is a nonempty contiguous
run, so the run must cover `l` entirely, or all of `l` but a final
newline.  Returns the captured group. -/
def hexTail (l : List Char) : Option (List Char) :=
  if !l.isEmpty && l.all isHexDigitLower then
    Option.some l
  else if l.getLast? == Option.some '\n'
      && !l.dropLast.isEmpty && l.dropLast.all isHexDigitLower then
    Option.some l.dropLast
  else
    Option.none

/-- One attempt of `re.search` at a fixed starting position: `atStart` is
true when the position is the start of the subject (where alone the `^` of
the first alternative can hold).  The alternatives are tried in pattern
order. -/
def matchAt (atStart : Bool) (l : List Char) : Option (List Char) :=
  match (if atStart && sbMarker.isPrefixOf l then
           hexTail (l.drop sbMarker.length)
         else Option.none) with
  | Option.some g => Option.some g
  | Option.none =>
    if shaMarker.isPrefixOf l then hexTail (l.drop shaMarker.length)
    else Option.none

/-- The scan of `re.search`: try each starting position from left to
right and return the first successful capture. -/
def searchFrom : Bool → List Char → Option (List Char)
  | atStart, [] => matchAt atStart []
  | atStart, c :: rest =>
    match matchAt atStart (c :: rest) with
    | Option.some g => Option.some g
    | Option.none => searchFrom false rest

/-- The identifier-extraction rule of `images.py:182-187`:
`re.search(r'(^Successfully built |sha256:)([0-9a-f]+)$', line)` and, on a
match, the capture `match.group(2)`. -/
def extractId (s : String) : Option String :=
  (searchFrom true s.data).map String.mk

/-- Boolean substring test used only in specification statements. -/
def hasSubstr (pat : List Char) : List Char → Bool
  | [] => pat.isEmpty
  | c :: rest => pat.isPrefixOf (c :: rest) || hasSubstr pat rest

/-- One loosely typed value of a daemon snapshot or of the value position
of a progress record, covering the shapes the accessors of `Image` read:
JSON null, a string, a list of strings, a flat string-to-string object,
and a nested object. -/
inductive AttrVal where
  | null
  | str (s : String)
  | strs (xs : List String)
  | strMap (entries : List (String × String))
  | objV (entries : List (String × AttrVal))

/-- One decoded progress record of a build stream: a flat JSON object
with string values, as an association list. -/
abbrev Chunk := List (String × String)

/-- The argument carried by a raised `BuildError`: either a plain string
(`chunk['error']` at `images.py:180`, or the literal `'Unknown'` at
`images.py:191`) or a whole progress record (`last_event` at
`images.py:191`). -/
inductive BuildErrorArg where
  | str (s : String)
  | event (c : Chunk)
deriving DecidableEq

/-- The exceptions the embedded code can raise. -/
inductive PyErr where
  | nameError (n : String)
  | keyError (k : String)
  | attributeError
  | typeError
  | notFound (ident : String)
  | buildError (arg : BuildErrorArg)
deriving DecidableEq

/-- An `Image` model: the stable identifier `id` assigned at creation and
the current snapshot `attrs`.  Modelled from the spec: the base class
`ReloadableModel` lives in `adocker/models/resource.py`, which is not part
of the sources; the spec states a Resource Model holds a stable `id` and a
`ResourceSnapshot` mapping `attrs` replaced wholesale on reload. -/
structure Image where
  id : String
  attrs : List (String × AttrVal)

/-- Python truthiness of an `AttrVal` (used by `result or` expressions):
`None`, empty strings and empty containers are falsy. -/
def pyTruthy : AttrVal → Bool
  | AttrVal.null => false
  | AttrVal.str s => !s.data.isEmpty
  | AttrVal.strs xs => !xs.isEmpty
  | AttrVal.strMap m => !m.isEmpty
  | AttrVal.objV m => !m.isEmpty

/-- The `labels` property (`images.py:19-25`):
`result = self.attrs['Config'].get('Labels'); return result or ...` with
an empty-dict default.  The subscript `self.attrs['Config']` raises
`KeyError` when the key is absent; `.get('Labels')` yields `None` when
that key is absent. -/
def Image.labels (img : Image) : Except PyErr AttrVal :=
  match img.attrs.lookup "Config" with
  | Option.none => Except.error (PyErr.keyError "Config")
  | Option.some (AttrVal.objV fields) =>
    let result := (fields.lookup "Labels").getD AttrVal.null
    Except.ok (if pyTruthy result then result else AttrVal.strMap [])
  | Option.some _ => Except.error PyErr.attributeError

/-- The `short_id` property (`images.py:27-35`): `self.id[:17]` when the
id starts with `sha256:`, else `self.id[:10]`. -/
def Image.short_id (img : Image) : String :=
  if startswith img.id "sha256:" then pyTake img.id 17 else pyTake img.id 10

/-- The `tags` property (`images.py:37-45`):
`tags = self.attrs.get('RepoTags')`, `None` replaced by the empty list,
then a comprehension dropping every entry equal to the sentinel
`<none>:<none>`.  A value that is neither null nor a list of strings is
outside the daemon contract; iterating it is modelled as a `TypeError`. -/
def Image.tags (img : Image) : Except PyErr (List String) :=
  match (img.attrs.lookup "RepoTags").getD AttrVal.null with
  | AttrVal.null => Except.ok []
  | AttrVal.strs xs => Except.ok (xs.filter (fun t => t != "<none>:<none>"))
  | _ => Except.error PyErr.typeError

/-- The names bound at module scope of `adocker/models/images.py`
(`images.py:1-9` imports plus the two class statements).  Python resolves
a plain name in a function body through the local, enclosing, module and
builtin scopes; `six` and `json_stream` are bound in none of them (and
neither is a Python builtin), so evaluating them raises `NameError`. -/
def moduleBindings : List String :=
  ["re", "typ", "aiohttp", "Collection", "ReloadableModel", "ImageHistory",
   "APIClient", "BuildError", "Image", "ImageCollection"]

/-- Name resolution for a plain name used inside `ImageCollection.build`. -/
def nameDefined (n : String) : Bool := moduleBindings.contains n

/-- What `self.client.api.build(**kwargs)` handed back to
`ImageCollection.build`: either a single string value or a (lazy) stream
of decoded progress records. -/
inductive GatewayResp where
  | str (s : String)
  | stream (chunks : List Chunk)

/-- Effect of one non-error record on the tentative `image_id`
(`images.py:181-187`): a `stream` line matching the extraction pattern
overwrites the capture, anything else leaves it unchanged. -/
def captureStep (iid : Option String) (c : Chunk) : Option String :=
  match c.lookup "stream" with
  | Option.some s =>
    match extractId s with
    | Option.some g => Option.some g
    | Option.none => iid
  | Option.none => iid

/-- The record loop of `ImageCollection.build` (`images.py:176-188`) over
the decoded stream, with parameters `last_event` and `image_id` made
explicit.  A record with an `error` key raises `BuildError` with that
key's value at once; otherwise the tentative capture is updated and the
record becomes `last_event`.  The `Nat` component counts the records
pulled from the lazy stream. -/
def buildLoop : List Chunk → Option Chunk → Option String →
    Nat × Except BuildErrorArg (Option Chunk × Option String)
  | [], le, iid => (0, Except.ok (le, iid))
  | c :: rest, _le, iid =>
    match c.lookup "error" with
    | Option.some msg => (1, Except.error (BuildErrorArg.str msg))
    | Option.none =>
      let r := buildLoop rest (Option.some c) (captureStep iid c)
      (r.fst + 1, r.snd)

/-- Python truthiness of the `image_id` local at `images.py:189`
(`None` and the empty string are falsy). -/
def truthyOptStr : Option String → Bool
  | Option.none => false
  | Option.some s => !s.data.isEmpty

/-- The expression `last_event or 'Unknown'` at `images.py:191`: `None`
and an empty record (an empty dict is falsy) are replaced by the string
`'Unknown'`. -/
def lastEventOrUnknown : Option Chunk → BuildErrorArg
  | Option.none => BuildErrorArg.str "Unknown"
  | Option.some c =>
    if c.isEmpty then BuildErrorArg.str "Unknown" else BuildErrorArg.event c

/-- Lines 189-191 of `images.py`: return `self.get(image_id)` when the
capture is truthy, else raise `BuildError(last_event or 'Unknown')`.
`get` is the Collection's snapshot-fetching operation, passed as an
oracle. -/
def buildFinish (get : String → Except PyErr Image)
    (le : Option Chunk) (iid : Option String) : Except PyErr Image :=
  if truthyOptStr iid then get (iid.getD "")
  else Except.error (PyErr.buildError (lastEventOrUnknown le))

/-- The whole stream-resolution of `ImageCollection.build`
(`images.py:176-191`): the record loop followed by the exhaustion step. -/
def buildResolve (get : String → Except PyErr Image)
    (chunks : List Chunk) : Nat × Except PyErr Image :=
  let r := buildLoop chunks Option.none Option.none
  (r.fst,
    match r.snd with
    | Except.error a => Except.error (PyErr.buildError a)
    | Except.ok (le, iid) => buildFinish get le iid)

/-- The body of `ImageCollection.build` after the name `six` has been
resolved (`images.py:174-191`): a plain string response is resolved via
`get` directly; a streamed response is decoded by `json_stream` — whose
name must itself resolve first (`images.py:178`) — and scanned by the
record loop. -/
def buildBody (get : String → Except PyErr Image)
    (resp : GatewayResp) : Nat × Except PyErr Image :=
  match resp with
  | GatewayResp.str s => (0, get s)
  | GatewayResp.stream chunks =>
    if nameDefined "json_stream" = true then buildResolve get chunks
    else (0, Except.error (PyErr.nameError "json_stream"))

/-- `ImageCollection.build` (`images.py:173-191`) applied to the value the
Gateway call returned.  Line 174 evaluates
`isinstance(resp, six.string_types)`, which resolves the plain name `six`
before anything else; the `Nat` component counts the progress records
pulled from the lazy stream. -/
def ImageCollection.build (get : String → Except PyErr Image)
    (resp : GatewayResp) : Nat × Except PyErr Image :=
  if nameDefined "six" = true then buildBody get resp
  else (0, Except.error (PyErr.nameError "six"))

/-- One call `ImageCollection.pull` makes against the Gateway. -/
inductive GwCall where
  | apiPull (name : String) (tag : Option String)
  | getImage (ident : String)
deriving DecidableEq

/-- The identifier `pull` resolves after the pull operation
(`images.py:282`): `'{0}:{1}'.format(name, tag) if tag else name` —
Python truthiness makes both `None` and the empty string fall back to
`name`. -/
def pullKey (name : String) (tag : Option String) : String :=
  match tag with
  | Option.some t => if t.data.isEmpty then name else name ++ ":" ++ t
  | Option.none => name

/-- `ImageCollection.pull` (`images.py:252-282`): issue the Gateway's
pull operation (its own progress stream is discarded; a failure of the
operation, passed as `apiPullErr`, propagates), then resolve the final
model via `get`.  The first component records the Gateway calls made, in
order. -/
def ImageCollection.pull (apiPullErr : Option PyErr)
    (getRes : String → Except PyErr Image)
    (name : String) (tag : Option String) :
    List GwCall × Except PyErr Image :=
  match apiPullErr with
  | Option.some e => ([GwCall.apiPull name tag], Except.error e)
  | Option.none =>
    ([GwCall.apiPull name tag, GwCall.getImage (pullKey name tag)],
     getRes (pullKey name tag))

/-- The record seen last after consuming `chunks`, starting from a
previous `last_event` value `le`. -/
def lastOf (le : Option Chunk) (chunks : List Chunk) : Option Chunk :=
  chunks.foldl (fun _ c => Option.some c) le

/-- The specification's description of the expected `tags` value, written
independently of the implementation for comparison: the `RepoTags`
sequence with every occurrence of the sentinel `<none>:<none>` removed,
keeping the remaining entries — order and multiplicity included —
unchanged. -/
def removeSentinel : List String → List String
  | [] => []
  | t :: ts =>
    if t = "<none>:<none>" then removeSentinel ts else t :: removeSentinel ts

theorem hexTail_spec (l m : List Char) (h : hexTail l = Option.some m) :
    m ≠ [] ∧ (m = l ∨ l = m ++ ['\n']) := by
  unfold hexTail at h
  split at h
  · rename_i hcond
    cases h
    refine ⟨?_, Or.inl rfl⟩
    intro hnil
    subst hnil
    simp at hcond
  · split at h
    · rename_i hcond
      cases h
      simp only [Bool.and_eq_true, beq_iff_eq, Bool.not_eq_eq_eq_not,
        Bool.not_true, List.isEmpty_eq_false] at hcond
      obtain ⟨⟨hlast, hne⟩, _⟩ := hcond
      refine ⟨hne, Or.inr ?_⟩
      rcases List.eq_nil_or_concat l with rfl | ⟨l2, a, rfl⟩
      · simp at hlast
      · simp only [List.concat_eq_append, List.getLast?_append,
          List.getLast?_singleton, Option.or_some, Option.some.injEq] at hlast
        simp [List.dropLast_concat, hlast]
    · exact absurd h (by simp)

theorem matchAt_cases (b : Bool) (l m : List Char)
    (h : matchAt b l = Option.some m) :
    hexTail (l.drop sbMarker.length) = Option.some m
    ∨ hexTail (l.drop shaMarker.length) = Option.some m := by
  unfold matchAt at h
  split at h
  · rename_i g heq
    cases h
    split at heq
    · exact Or.inl heq
    · exact absurd heq (by simp)
  · split at h
    · exact Or.inr h
    · exact absurd h (by simp)

theorem matchAt_suffix (b : Bool) (l m : List Char)
    (h : matchAt b l = Option.some m) :
    m ≠ [] ∧ ∃ t, l = t ++ m ∨ l = t ++ (m ++ ['\n']) := by
  rcases matchAt_cases b l m h with hh | hh
  · obtain ⟨hne, hsuf⟩ := hexTail_spec _ _ hh
    refine ⟨hne, ⟨l.take sbMarker.length, ?_⟩⟩
    rcases hsuf with he | he
    · exact Or.inl (by rw [he]; exact (List.take_append_drop _ l).symm)
    · exact Or.inr (by rw [← he]; exact (List.take_append_drop _ l).symm)
  · obtain ⟨hne, hsuf⟩ := hexTail_spec _ _ hh
    refine ⟨hne, ⟨l.take shaMarker.length, ?_⟩⟩
    rcases hsuf with he | he
    · exact Or.inl (by rw [he]; exact (List.take_append_drop _ l).symm)
    · exact Or.inr (by rw [← he]; exact (List.take_append_drop _ l).symm)

theorem searchFrom_suffix :
    ∀ (l : List Char) (b : Bool) (m : List Char),
      searchFrom b l = Option.some m →
      m ≠ [] ∧ ∃ t, l = t ++ m ∨ l = t ++ (m ++ ['\n'])
  | [], b, m, h => matchAt_suffix b [] m h
  | c :: rest, b, m, h => by
    unfold searchFrom at h
    split at h
    · rename_i g heq
      cases h
      exact matchAt_suffix b (c :: rest) m heq
    · obtain ⟨hne, t, ht⟩ := searchFrom_suffix rest false m h
      refine ⟨hne, ⟨c :: t, ?_⟩⟩
      rcases ht with ht | ht
      · exact Or.inl (by rw [ht]; rfl)
      · exact Or.inr (by rw [ht]; rfl)

theorem matchAt_of_no_marker (b : Bool) (l : List Char)
    (h1 : b = true → sbMarker.isPrefixOf l = false)
    (h2 : shaMarker.isPrefixOf l = false) :
    matchAt b l = Option.none := by
  unfold matchAt
  have hb : (b && sbMarker.isPrefixOf l) = false := by
    cases b
    · rfl
    · simp [h1 rfl]
  simp [hb, h2]

theorem searchFrom_of_no_marker :
    ∀ (l : List Char) (b : Bool),
      hasSubstr shaMarker l = false →
      (b = true → sbMarker.isPrefixOf l = false) →
      searchFrom b l = Option.none
  | [], b, _, h2 => by
    unfold searchFrom
    exact matchAt_of_no_marker b [] h2 (by decide)
  | c :: rest, b, h1, h2 => by
    unfold hasSubstr at h1
    simp only [Bool.or_eq_false_iff] at h1
    unfold searchFrom
    rw [matchAt_of_no_marker b (c :: rest) h2 h1.1]
    exact searchFrom_of_no_marker rest false h1.2 (by intro hf; cases hf)

theorem extractId_spec (s g : String) (h : extractId s = Option.some g) :
    g.data ≠ [] ∧ ∃ t, s.data = t ++ g.data ∨ s.data = t ++ (g.data ++ ['\n']) := by
  unfold extractId at h
  rw [Option.map_eq_some'] at h
  obtain ⟨m, hm, hg⟩ := h
  obtain ⟨hne, t, ht⟩ := searchFrom_suffix s.data true m hm
  subst hg
  exact ⟨hne, ⟨t, ht⟩⟩

theorem extractId_of_no_marker (s : String)
    (h1 : hasSubstr shaMarker s.data = false)
    (h2 : sbMarker.isPrefixOf s.data = false) :
    extractId s = Option.none := by
  unfold extractId
  rw [searchFrom_of_no_marker s.data true h1 (fun _ => h2)]
  rfl

theorem buildLoop_noError :
    ∀ (chunks : List Chunk) (le : Option Chunk) (iid : Option String),
      (∀ ch ∈ chunks, ch.lookup "error" = Option.none) →
      buildLoop chunks le iid
        = (chunks.length,
           Except.ok (lastOf le chunks, chunks.foldl captureStep iid))
  | [], le, iid, _ => rfl
  | c :: rest, le, iid, h => by
    have hc : c.lookup "error" = Option.none := h c (List.mem_cons_self c rest)
    have ih := buildLoop_noError rest (Option.some c) (captureStep iid c)
      (fun ch hch => h ch (List.mem_cons_of_mem c hch))
    simp only [buildLoop, hc, ih, List.length_cons, List.foldl_cons]
    rfl

theorem buildLoop_errorAt :
    ∀ (pre : List Chunk) (c : Chunk) (post : List Chunk)
      (le : Option Chunk) (iid : Option String) (msg : String),
      (∀ ch ∈ pre, ch.lookup "error" = Option.none) →
      c.lookup "error" = Option.some msg →
      buildLoop (pre ++ c :: post) le iid
        = (pre.length + 1, Except.error (BuildErrorArg.str msg))
  | [], c, post, le, iid, msg, _, hc => by
    simp only [List.nil_append, buildLoop, hc, List.length_nil]
  | p :: pre, c, post, le, iid, msg, hpre, hc => by
    have hp : p.lookup "error" = Option.none := hpre p (List.mem_cons_self p pre)
    have ih := buildLoop_errorAt pre c post (Option.some p) (captureStep iid p)
      msg (fun ch hch => hpre ch (List.mem_cons_of_mem p hch)) hc
    simp only [List.cons_append, buildLoop, hp, List.append_eq, ih,
      List.length_cons]

theorem foldl_captureStep_matchless :
    ∀ (chunks : List Chunk) (iid : Option String),
      (∀ ch ∈ chunks, ∀ s, ch.lookup "stream" = Option.some s →
        extractId s = Option.none) →
      chunks.foldl captureStep iid = iid
  | [], _, _ => rfl
  | c :: rest, iid, h => by
    have hstep : captureStep iid c = iid := by
      cases hc : c.lookup "stream" with
      | none => simp only [captureStep, hc]
      | some s =>
        simp only [captureStep, hc, h c (List.mem_cons_self c rest) s hc]
    rw [List.foldl_cons, hstep]
    exact foldl_captureStep_matchless rest iid
      (fun ch hch => h ch (List.mem_cons_of_mem c hch))

/-- C5: every invocation of `ImageCollection.build`, whatever the Gateway
returned, raises `NameError` for the unbound name `six` at the
`isinstance(resp, six.string_types)` test, with zero progress records
consumed and no `Image` or `BuildError` produced; the name `json_stream`
is equally unbound, so even past that point the streamed branch would
raise `NameError` before touching any record. -/
theorem build_always_nameerror :
    nameDefined "six" = false
    ∧ nameDefined "json_stream" = false
    ∧ (∀ (get : String → Except PyErr Image) (resp : GatewayResp),
        ImageCollection.build get resp
          = (0, Except.error (PyErr.nameError "six")))
    ∧ (∀ (get : String → Except PyErr Image) (chunks : List Chunk),
        buildBody get (GatewayResp.stream chunks)
          = (0, Except.error (PyErr.nameError "json_stream"))) :=
  ⟨by decide, by decide, fun _ _ => rfl, fun _ _ => rfl⟩

/-- C6: the line-174/175 short circuit — after the name `six` resolves,
a plain string Gateway response is passed directly to `get` with no
record consumed; but in the code as written the `six` lookup raises
`NameError` first, so `build` never returns `get(resp)`. -/
theorem build_string_resp_shortcircuit :
    (∀ (get : String → Except PyErr Image) (s : String),
        buildBody get (GatewayResp.str s) = (0, get s))
    ∧ (∀ (get : String → Except PyErr Image) (s : String),
        ImageCollection.build get (GatewayResp.str s)
          = (0, Except.error (PyErr.nameError "six"))) :=
  ⟨fun _ _ => rfl, fun _ _ => rfl⟩

/-- C1: the stream resolver of lines 176-191, run on a sequence whose
first error record sits at position `pre.length`, raises `BuildError`
with that record's `error` message after consuming exactly the records up
to and including it; but `ImageCollection.build` as written raises
`NameError` for `six` with zero records consumed instead. -/
theorem build_error_record_failfast
    (get : String → Except PyErr Image) (pre post : List Chunk)
    (c : Chunk) (msg : String)
    (hpre : ∀ ch ∈ pre, ch.lookup "error" = Option.none)
    (hc : c.lookup "error" = Option.some msg) :
    buildResolve get (pre ++ (c :: post))
      = (pre.length + 1,
         Except.error (PyErr.buildError (BuildErrorArg.str msg)))
    ∧ ImageCollection.build get (GatewayResp.stream (pre ++ (c :: post)))
      = (0, Except.error (PyErr.nameError "six")) := by
  constructor
  · unfold buildResolve
    rw [buildLoop_errorAt pre c post Option.none Option.none msg hpre hc]
  · rfl

/-- C1 witness: a one-record sequence carrying an error message. -/
theorem build_error_record_failfast_witness :
    buildResolve (fun s => Except.ok (Image.mk s []))
        ([] ++ ([("error", "boom")] :: []))
      = (1, Except.error (PyErr.buildError (BuildErrorArg.str "boom")))
    ∧ ImageCollection.build (fun s => Except.ok (Image.mk s []))
        (GatewayResp.stream ([] ++ ([("error", "boom")] :: [])))
      = (0, Except.error (PyErr.nameError "six")) :=
  build_error_record_failfast (fun s => Except.ok (Image.mk s []))
    [] [] [("error", "boom")] "boom" (by intro ch hch; cases hch) rfl

/-- C4: the stream resolver of lines 176-191, on a sequence with no error
record and no line matching the extraction pattern, raises `BuildError`
carrying `'Unknown'` when the sequence is empty and the final record when
it is nonempty (and, by the falsy-dict test of `last_event or 'Unknown'`,
not empty as a dict); but `ImageCollection.build` as written raises
`NameError` for `six` instead. -/
theorem build_exhaustion_outcome
    (get : String → Except PyErr Image) (chunks : List Chunk)
    (herr : ∀ ch ∈ chunks, ch.lookup "error" = Option.none)
    (hnm : ∀ ch ∈ chunks, ∀ s, ch.lookup "stream" = Option.some s →
        extractId s = Option.none) :
    (chunks = [] →
      buildResolve get chunks
        = (0, Except.error (PyErr.buildError (BuildErrorArg.str "Unknown"))))
    ∧ (∀ cs c, chunks = cs ++ [c] → c ≠ [] →
      buildResolve get chunks
        = (chunks.length,
           Except.error (PyErr.buildError (BuildErrorArg.event c))))
    ∧ ImageCollection.build get (GatewayResp.stream chunks)
      = (0, Except.error (PyErr.nameError "six")) := by
  refine ⟨?_, ?_, rfl⟩
  · intro hE
    subst hE
    rfl
  · intro cs c heq hc
    unfold buildResolve
    rw [buildLoop_noError chunks Option.none Option.none herr,
      foldl_captureStep_matchless chunks Option.none hnm]
    have hlast : lastOf Option.none chunks = Option.some c := by
      rw [heq]
      simp [lastOf, List.foldl_append]
    rw [hlast]
    have hce : c.isEmpty = false := by
      cases c
      · exact absurd rfl hc
      · rfl
    simp [buildFinish, truthyOptStr, lastEventOrUnknown, hce]

/-- C4 witness: one non-matching, non-error record. -/
theorem build_exhaustion_outcome_witness :
    buildResolve (fun s => Except.ok (Image.mk s [])) [[("stream", "step 1")]]
      = (1, Except.error
          (PyErr.buildError (BuildErrorArg.event [("stream", "step 1")]))) := by
  have h := build_exhaustion_outcome (fun s => Except.ok (Image.mk s []))
    [[("stream", "step 1")]]
    (by intro ch hch; rw [List.mem_singleton.mp hch]; rfl)
    (by
      intro ch hch s hs
      rw [List.mem_singleton.mp hch] at hs
      have hss : "step 1" = s := Option.some.inj hs
      subst hss
      decide)
  exact h.2.1 [] [("stream", "step 1")] rfl (by decide)

theorem captureStep_stream (x : Option String) (s g : String)
    (h : extractId s = Option.some g) :
    captureStep x [("stream", s)] = Option.some g := by
  simp only [captureStep,
    show (([("stream", s)] : Chunk).lookup "stream") = Option.some s from rfl, h]

/-- C2: the stream resolver of lines 176-191, on a sequence with a
matching `stream` line capturing `g1` followed later by a matching line
capturing `g2` and no later match, resolves via `get` applied to `g2` —
the capture of the last matching line wins; but `ImageCollection.build`
as written raises `NameError` for `six` instead of returning that
model. -/
theorem build_last_match_wins
    (get : String → Except PyErr Image) (pre mid post : List Chunk)
    (s1 s2 g1 g2 : String)
    (hpre : ∀ ch ∈ pre, ch.lookup "error" = Option.none)
    (hmid : ∀ ch ∈ mid, ch.lookup "error" = Option.none)
    (hpost : ∀ ch ∈ post, ch.lookup "error" = Option.none)
    (_h1 : extractId s1 = Option.some g1)
    (h2 : extractId s2 = Option.some g2)
    (hpostNM : ∀ ch ∈ post, ∀ s, ch.lookup "stream" = Option.some s →
        extractId s = Option.none) :
    buildResolve get
        (pre ++ ([("stream", s1)] :: (mid ++ ([("stream", s2)] :: post))))
      = ((pre ++ ([("stream", s1)] :: (mid ++ ([("stream", s2)] :: post)))).length,
         get g2)
    ∧ ImageCollection.build get
        (GatewayResp.stream
          (pre ++ ([("stream", s1)] :: (mid ++ ([("stream", s2)] :: post)))))
      = (0, Except.error (PyErr.nameError "six")) := by
  constructor
  · have herrAll :
        ∀ ch ∈ pre ++ ([("stream", s1)] :: (mid ++ ([("stream", s2)] :: post))),
          ch.lookup "error" = Option.none := by
      intro ch hch
      rcases List.mem_append.mp hch with hm | hm
      · exact hpre ch hm
      · rcases List.mem_cons.mp hm with hm | hm
        · rw [hm]; rfl
        · rcases List.mem_append.mp hm with hm | hm
          · exact hmid ch hm
          · rcases List.mem_cons.mp hm with hm | hm
            · rw [hm]; rfl
            · exact hpost ch hm
    unfold buildResolve
    rw [buildLoop_noError _ Option.none Option.none herrAll]
    have hfold :
        (pre ++ ([("stream", s1)] :: (mid ++ ([("stream", s2)] :: post)))).foldl
          captureStep Option.none = Option.some g2 := by
      rw [List.foldl_append, List.foldl_cons, List.foldl_append, List.foldl_cons]
      rw [captureStep_stream _ s2 g2 h2]
      exact foldl_captureStep_matchless post (Option.some g2) hpostNM
    rw [hfold]
    have hgne : g2.data.isEmpty = false :=
      List.isEmpty_eq_false.mpr (extractId_spec s2 g2 h2).1
    simp [buildFinish, truthyOptStr, hgne]
  · rfl

/-- C2 witness: two "Successfully built" lines naming aaa then bbb. -/
theorem build_last_match_wins_witness :
    buildResolve (fun s => Except.ok (Image.mk s []))
        ([] ++ ([("stream", "Successfully built aaa")] ::
          ([] ++ ([("stream", "Successfully built bbb")] :: []))))
      = (2, Except.ok (Image.mk "bbb" []))
    ∧ ImageCollection.build (fun s => Except.ok (Image.mk s []))
        (GatewayResp.stream
          ([] ++ ([("stream", "Successfully built aaa")] ::
            ([] ++ ([("stream", "Successfully built bbb")] :: [])))))
      = (0, Except.error (PyErr.nameError "six")) :=
  build_last_match_wins (fun s => Except.ok (Image.mk s []))
    [] [] [] "Successfully built aaa" "Successfully built bbb" "aaa" "bbb"
    (by intro ch hch; cases hch) (by intro ch hch; cases hch)
    (by intro ch hch; cases hch) (by decide) (by decide)
    (by intro ch hch; cases hch)

/-- C3 counterexample: a log line that does not start with either marker
still yields a capture, because the `sha256:` alternative of the pattern
is not anchored to the line start — only its hex run must reach the line
end. -/
theorem extractId_midline_sha_cex :
    extractId "red herring sha256:cafe1234" = Option.some "cafe1234"
    ∧ startswith "red herring sha256:cafe1234" "sha256:" = false
    ∧ startswith "red herring sha256:cafe1234" "Successfully built " = false := by
  decide

/-- C3 amended: the extraction rule is anchored to the line end for both
alternatives (any capture, with a possible final newline, ends the line)
and a line containing neither `sha256:` anywhere nor `Successfully built`
at its start yields no capture; but the `sha256:` alternative matches
anywhere in the line provided its hex run extends to the line end, and a
`sha256:` fragment whose hex stops before the line end does not match. -/
theorem extractId_anchoring :
    (∀ s g, extractId s = Option.some g →
      g.data ≠ [] ∧ ∃ t, s.data = t ++ g.data ∨ s.data = t ++ (g.data ++ ['\n']))
    ∧ (∀ s, hasSubstr shaMarker s.data = false →
        sbMarker.isPrefixOf s.data = false → extractId s = Option.none)
    ∧ extractId "red herring sha256:cafe1234" = Option.some "cafe1234"
    ∧ extractId "sha256:abc not at end" = Option.none := by
  refine ⟨extractId_spec, extractId_of_no_marker, by decide, by decide⟩

/-- C3 witness: the end-anchoring conjunct applied to a "Successfully
built" line and the no-marker conjunct applied to a red-herring hex
line. -/
theorem extractId_anchoring_witness :
    ("abc123".data ≠ []
      ∧ ∃ t, "Successfully built abc123".data = t ++ "abc123".data
        ∨ "Successfully built abc123".data = t ++ ("abc123".data ++ ['\n']))
    ∧ extractId "layer cafebabe0123 exported" = Option.none := by
  constructor
  · exact extractId_anchoring.1 "Successfully built abc123" "abc123" (by decide)
  · exact extractId_anchoring.2.1 "layer cafebabe0123 exported" (by decide)
      (by decide)

/-- C7 counterexample: a model whose id carries the `sha256:` prefix but
has fewer than 17 characters — `short_id` returns the whole id, not
exactly 17 characters. -/
theorem short_id_short_sha_cex :
    startswith (Image.mk "sha256:abc" []).id "sha256:" = true
    ∧ pyLen ((Image.mk "sha256:abc" []).short_id) ≠ 17
    ∧ (Image.mk "sha256:abc" []).short_id = "sha256:abc" := by
  decide

/-- C7 amended: for an id carrying the `sha256:` prefix, `short_id` is
the first 17 code points — the prefix is preserved and the length is
exactly 17 when the id has at least 17 code points, and the whole id is
returned when it is shorter; for any other id it is the first 10 code
points, or the whole id when shorter than 10. -/
theorem short_id_spec (img : Image) :
    (startswith img.id "sha256:" = true →
      img.short_id = pyTake img.id 17
      ∧ startswith img.short_id "sha256:" = true
      ∧ pyLen img.short_id = min 17 (pyLen img.id)
      ∧ (pyLen img.id < 17 → img.short_id = img.id))
    ∧ (startswith img.id "sha256:" = false →
      img.short_id = pyTake img.id 10
      ∧ pyLen img.short_id = min 10 (pyLen img.id)
      ∧ (pyLen img.id < 10 → img.short_id = img.id)) := by
  constructor
  · intro h
    have hsid : img.short_id = pyTake img.id 17 := by
      simp [Image.short_id, h]
    refine ⟨hsid, ?_, ?_, ?_⟩
    · rw [hsid]
      have hp : "sha256:".data.isPrefixOf img.id.data = true := h
      rw [List.isPrefixOf_iff_prefix] at hp
      obtain ⟨r, hr⟩ := hp
      show ("sha256:".data.isPrefixOf (img.id.data.take 17)) = true
      rw [List.isPrefixOf_iff_prefix, ← hr, List.take_append_eq_append_take,
        List.take_of_length_le (by decide)]
      exact List.prefix_append _ _
    · rw [hsid]
      exact List.length_take 17 img.id.data
    · intro hlt
      rw [hsid]
      show String.mk (img.id.data.take 17) = img.id
      rw [List.take_of_length_le (Nat.le_of_lt hlt)]
  · intro h
    have hsid : img.short_id = pyTake img.id 10 := by
      simp [Image.short_id, h]
    refine ⟨hsid, ?_, ?_⟩
    · rw [hsid]
      exact List.length_take 10 img.id.data
    · intro hlt
      rw [hsid]
      show String.mk (img.id.data.take 10) = img.id
      rw [List.take_of_length_le (Nat.le_of_lt hlt)]

/-- C7 witness: a 17-plus-character `sha256:`-prefixed id keeps the
prefix and is cut to exactly 17 characters. -/
theorem short_id_spec_witness :
    pyLen ((Image.mk "sha256:0123456789ab" []).short_id)
      = min 17 (pyLen (Image.mk "sha256:0123456789ab" []).id)
    ∧ startswith ((Image.mk "sha256:0123456789ab" []).short_id) "sha256:" = true := by
  have h := (short_id_spec (Image.mk "sha256:0123456789ab" [])).1 (by decide)
  exact ⟨h.2.2.1, h.2.1⟩

theorem filter_eq_removeSentinel :
    ∀ xs : List String,
      xs.filter (fun t => t != "<none>:<none>") = removeSentinel xs
  | [] => rfl
  | t :: ts => by
    rw [List.filter_cons]
    by_cases h : t = "<none>:<none>"
    · subst h
      simp [removeSentinel, filter_eq_removeSentinel ts]
    · rw [show (t != "<none>:<none>") = true from bne_iff_ne.mpr h]
      simp [removeSentinel, h, filter_eq_removeSentinel ts]

/-- C8: `tags` returns the empty sequence when `RepoTags` is absent or
null, and otherwise returns exactly the `RepoTags` sequence with every
occurrence of the sentinel `<none>:<none>` removed and the remaining
entries kept in order with their multiplicity (`removeSentinel`, the
specification-side description); consequently the result is an
order-preserving sublist, free of the sentinel, containing every
non-sentinel entry, and empty for a sentinel-only sequence. -/
theorem tags_spec (img : Image) :
    ((img.attrs.lookup "RepoTags" = Option.none
        ∨ img.attrs.lookup "RepoTags" = Option.some AttrVal.null) →
      img.tags = Except.ok [])
    ∧ (∀ xs, img.attrs.lookup "RepoTags" = Option.some (AttrVal.strs xs) →
      img.tags = Except.ok (removeSentinel xs)
        ∧ List.Sublist (removeSentinel xs) xs
        ∧ "<none>:<none>" ∉ removeSentinel xs
        ∧ (∀ t ∈ xs, t ≠ "<none>:<none>" → t ∈ removeSentinel xs)
        ∧ ((∀ t ∈ xs, t = "<none>:<none>") → removeSentinel xs = [])) := by
  constructor
  · intro h
    rcases h with h | h
    · simp [Image.tags, h]
    · simp [Image.tags, h]
  · intro xs h
    rw [← filter_eq_removeSentinel xs]
    refine ⟨?_, ?_, ?_, ?_, ?_⟩
    · simp [Image.tags, h]
    · exact List.filter_sublist xs
    · intro hmem
      rw [List.mem_filter] at hmem
      simp at hmem
    · intro t ht hne
      exact List.mem_filter.mpr ⟨ht, bne_iff_ne.mpr hne⟩
    · intro hall
      rw [List.filter_eq_nil_iff]
      intro a ha
      rw [hall a ha]
      simp

/-- C8 witness: a snapshot whose `RepoTags` holds a duplicated real tag
and one sentinel — both occurrences of the real tag survive, in order,
and the sentinel is removed. -/
theorem tags_spec_witness :
    (Image.mk "i"
        [("RepoTags",
          AttrVal.strs ["x:latest", "x:latest", "<none>:<none>"])]).tags
      = Except.ok (removeSentinel ["x:latest", "x:latest", "<none>:<none>"])
    ∧ removeSentinel ["x:latest", "x:latest", "<none>:<none>"]
      = ["x:latest", "x:latest"] := by
  refine ⟨((tags_spec (Image.mk "i"
      [("RepoTags",
        AttrVal.strs ["x:latest", "x:latest", "<none>:<none>"])])).2
    ["x:latest", "x:latest", "<none>:<none>"] rfl).1, by decide⟩

/-- C9 counterexample: with an empty-string tag — a given tag — `pull`
resolves via `get(name)`, not via `get("name:" + tag)`, because the code
tests Python truthiness (`if tag`), under which the empty string counts
as no tag. -/
theorem pull_empty_tag_cex :
    (ImageCollection.pull Option.none (fun s => Except.ok (Image.mk s []))
        "busybox" (Option.some "")).fst
      = [GwCall.apiPull "busybox" (Option.some ""), GwCall.getImage "busybox"]
    ∧ ("busybox" : String) ≠ "busybox:" := by
  exact ⟨rfl, by decide⟩

/-- C9 amended: `pull` issues the Gateway's pull operation for
`(name, tag)` and then calls `get` on the derived key, returning `get`'s
result — including any `NotFound` error — unchanged; the key is
`name:tag` when a non-empty tag is given, and `name` when the tag is
omitted or empty. -/
theorem pull_then_get (getRes : String → Except PyErr Image)
    (name : String) (tag : Option String) :
    ImageCollection.pull Option.none getRes name tag
      = ([GwCall.apiPull name tag, GwCall.getImage (pullKey name tag)],
         getRes (pullKey name tag))
    ∧ (∀ t, tag = Option.some t → t ≠ "" → pullKey name tag = name ++ ":" ++ t)
    ∧ ((tag = Option.none ∨ tag = Option.some "") → pullKey name tag = name) := by
  refine ⟨rfl, ?_, ?_⟩
  · intro t ht hne
    subst ht
    have hd : t.data.isEmpty = false := by
      cases ht2 : t.data.isEmpty
      · rfl
      · exfalso
        apply hne
        have hdata : t.data = [] := by
          cases hd : t.data with
          | nil => rfl
          | cons a as =>
            rw [hd] at ht2
            simp at ht2
        calc t = String.mk t.data := rfl
          _ = String.mk [] := by rw [hdata]
          _ = "" := by decide
    simp [pullKey, hd]
  · intro h
    rcases h with h | h
    · subst h; rfl
    · subst h; rfl

/-- C9 witness: the documented scenario `pull("busybox", "latest")`, with
a `get` oracle that raises `NotFound` — the error propagates unchanged
after the pull call. -/
theorem pull_then_get_witness :
    ImageCollection.pull Option.none
        (fun ident => Except.error (PyErr.notFound ident)) "busybox"
        (Option.some "latest")
      = ([GwCall.apiPull "busybox" (Option.some "latest"),
          GwCall.getImage (pullKey "busybox" (Option.some "latest"))],
         Except.error (PyErr.notFound (pullKey "busybox" (Option.some "latest"))))
    ∧ pullKey "busybox" (Option.some "latest") = "busybox" ++ ":" ++ "latest" := by
  have h := pull_then_get (fun ident => Except.error (PyErr.notFound ident))
    "busybox" (Option.some "latest")
  exact ⟨h.1, h.2.1 "latest" rfl (by decide)⟩

/-- C10 counterexample: a snapshot with no `Config` key — `labels`
raises `KeyError` instead of returning the empty mapping. -/
theorem labels_missing_config_cex :
    (Image.mk "i" []).labels = Except.error (PyErr.keyError "Config")
    ∧ (Image.mk "i" []).labels ≠ Except.ok (AttrVal.strMap []) := by
  refine ⟨rfl, ?_⟩
  intro h
  rw [show (Image.mk "i" []).labels = Except.error (PyErr.keyError "Config")
    from rfl] at h
  exact Except.noConfusion h

/-- C10 amended: `labels` is a pure function of `attrs` alone (two models
with the same snapshot and different ids agree), performs no reload, and
when the `Config` key is present as an object it returns that object's
`Labels` mapping — the empty mapping when `Labels` is absent or null;
but when `Config` itself is absent it raises `KeyError` rather than
returning the empty mapping. -/
theorem labels_spec :
    (∀ (a : List (String × AttrVal)) (i j : String),
      (Image.mk i a).labels = (Image.mk j a).labels)
    ∧ (∀ (img : Image), img.attrs.lookup "Config" = Option.none →
      img.labels = Except.error (PyErr.keyError "Config"))
    ∧ (∀ (img : Image) (fields : List (String × AttrVal)),
      img.attrs.lookup "Config" = Option.some (AttrVal.objV fields) →
      ((fields.lookup "Labels" = Option.none
          ∨ fields.lookup "Labels" = Option.some AttrVal.null) →
        img.labels = Except.ok (AttrVal.strMap []))
      ∧ (∀ m, fields.lookup "Labels" = Option.some (AttrVal.strMap m) →
        img.labels = Except.ok (AttrVal.strMap m))) := by
  refine ⟨fun a i j => rfl, ?_, ?_⟩
  · intro img h
    simp [Image.labels, h]
  · intro img fields h
    constructor
    · intro h2
      rcases h2 with h2 | h2
      · simp [Image.labels, h, h2, pyTruthy]
      · simp [Image.labels, h, h2, pyTruthy]
    · intro m hm
      cases hme : m.isEmpty
      · simp [Image.labels, h, hm, pyTruthy, hme]
      · have : m = [] := by
          cases m
          · rfl
          · exact absurd hme (by simp)
        subst this
        simp [Image.labels, h, hm, pyTruthy]

/-- C10 witness: `Labels` absent yields the empty mapping; a present
`Labels` mapping is returned as is. -/
theorem labels_spec_witness :
    (Image.mk "i" [("Config", AttrVal.objV [])]).labels
      = Except.ok (AttrVal.strMap [])
    ∧ (Image.mk "i"
        [("Config", AttrVal.objV [("Labels", AttrVal.strMap [("k", "v")])])]).labels
      = Except.ok (AttrVal.strMap [("k", "v")]) := by
  constructor
  · exact (labels_spec.2.2 (Image.mk "i" [("Config", AttrVal.objV [])]) []
      rfl).1 (Or.inl rfl)
  · exact (labels_spec.2.2
      (Image.mk "i"
        [("Config", AttrVal.objV [("Labels", AttrVal.strMap [("k", "v")])])])
      [("Labels", AttrVal.strMap [("k", "v")])] rfl).2 [("k", "v")] rfl
